import Mathlib

set_option maxRecDepth 8000

/-!
Verification development for `generate_html.py` of the spot-hinta repository.

The script turns a list of electricity price records into HTML price tables.
We shallowly embed the table-building pipeline (`PriceTable.__init__`,
`PriceTable.length`, `PriceTable.get_html_table_vertical`,
`PriceTable.get_html_page`, and the module-level page generation) as Lean
functions.  Python floats are modelled as exact rationals, Python `round`
(banker's rounding, ties to even) as `pyRound`, and Python `assert` /
uncaught exceptions as `Option` failure (`none` = the run aborts).

The datetime library is external to the repository: parsing of `startDate`
strings, timezone conversion and `strftime` formatting are modelled
abstractly by the functions in `BuilderEnv` (a parsed timestamp is an
abstract instant `tsVal : String -> Int` compared against `now`, and
`fmtDate` / `fmtHour` are the composites
`translate_date_to_finnish(strftime(astimezone(parse(s))))` and
`strftime("%H", astimezone(parse(s)))` of the raw `startDate` string).
-/

namespace SpotHinta

/-- Floor of a rational, computably: `q.num / q.den` with integer division.
Agrees with `Int.floor` by `Rat.floor_def`. -/
def ratFloor (q : ℚ) : ℤ := q.num / (q.den : ℤ)

theorem ratFloor_eq_floor (q : ℚ) : ratFloor q = ⌊q⌋ := (Rat.floor_def).symm

/-- Python `round(x)`: round to the nearest integer, ties to the even
integer (banker's rounding). -/
def pyRound (q : ℚ) : ℤ :=
  if q - (ratFloor q : ℚ) < 1/2 then ratFloor q
  else if 1/2 < q - (ratFloor q : ℚ) then ratFloor q + 1
  else if ratFloor q % 2 = 0 then ratFloor q else ratFloor q + 1

/-- Python `round(x, 2)`: round to the nearest multiple of 1/100,
ties to even. -/
def pyRound2 (q : ℚ) : ℚ := (pyRound (q * 100) : ℚ) / 100

/-- The bar width the script assigns to a price at a given scale
(`generate_html.py` lines 125 and 129): the price is first rounded to two
decimals, then `round(price * scale)` is taken. -/
def priceBarWidth (scale : ℚ) (price : ℚ) : ℤ :=
  pyRound (pyRound2 price * scale)

/-- Python `"{:.2f}".format(q)` for a rational that the script has already
rounded to two decimals. -/
def formatFixed2 (q : ℚ) : String :=
  let n := pyRound (q * 100)
  let a := n.natAbs
  (if n < 0 then "-" else "") ++ toString (a / 100) ++ "." ++
    (if a % 100 < 10 then "0" else "") ++ toString (a % 100)

/-- The string put into the price column for a raw price
(`generate_html.py` lines 125-126). -/
def priceCellStr (p : ℚ) : String := formatFixed2 (pyRound2 p)

/-- A price record of the JSON feed: `{"startDate": ..., "price": ...}`. -/
structure PriceRecord where
  startDate : String
  price : ℚ
deriving DecidableEq

/-- The `DataColumn` dataclass of `generate_html.py`. -/
structure DataColumn where
  header : String
  header_css_class : String
  content_css_class : String
  data : List String
deriving DecidableEq

/-- The fields of the Python `PriceTable` object after `__init__` that the
rest of the script reads. -/
structure PriceTable where
  date_column : DataColumn
  hour_column : DataColumn
  price_column : DataColumn
  bar_graph_column : DataColumn
  max_price : ℚ
  bar_width_per_price : ℚ
  show_15_min_prices : Bool
  has_two_columns : Bool
deriving DecidableEq

/-- The external datetime facilities used by the table builder, abstracted
over the raw `startDate` string (see the module docstring). -/
structure BuilderEnv where
  now : ℤ
  tsVal : String → ℤ
  fmtDate : String → String
  fmtHour : String → String

/-- Python `max(l)` for a possibly empty list: `ValueError` on `[]`. -/
def pyMaxQ : List ℚ → Option ℚ
  | [] => none
  | x :: xs => some (xs.foldl max x)

/-- Python list item assignment `l[i] = c` with Python's negative-index
semantics; `none` models an `IndexError`. -/
def pySetIdx (l : List Char) (i : ℤ) (c : Char) : Option (List Char) :=
  if 0 ≤ i then
    if i.toNat < l.length then some (l.set i.toNat c) else none
  else
    if 0 ≤ i + (l.length : ℤ) then some (l.set (i + (l.length : ℤ)).toNat c) else none

example : pyRound (1/2) = 0 := by with_unfolding_all decide
example : pyRound (3/2) = 2 := by with_unfolding_all decide
example : pyRound (5/2) = 2 := by with_unfolding_all decide
example : pyRound (-1/2) = 0 := by with_unfolding_all decide
example : pyRound (-3/2) = -2 := by with_unfolding_all decide
example : pyRound (7/10) = 1 := by with_unfolding_all decide
example : pyRound2 (-1/1000) = 0 := by with_unfolding_all decide
example : priceCellStr (-1) = "-1.00" := by with_unfolding_all decide
example : priceCellStr (1/8) = "0.12" := by with_unfolding_all decide

/-- Python substring containment `p in l` on lists of characters. -/
def listContains (p : List Char) : List Char → Bool
  | [] => p.isEmpty
  | c :: rest => p.isPrefixOf (c :: rest) || listContains p rest

/-- Python `sorted(price_data, key=lambda d: d['startDate'])`
(`generate_html.py` lines 81-82): a stable sort on the `startDate` string. -/
def sortByStart (l : List PriceRecord) : List PriceRecord :=
  l.mergeSort (fun a b => a.startDate ≤ b.startDate)

/-- The in-scope test of the builder loops (`generate_html.py` lines 95 and
107): keep a record when history is shown or its timestamp is not in the
past. -/
def inScopeB (env : BuilderEnv) (show_also_hist : Bool) (r : PriceRecord) : Bool :=
  show_also_hist || env.now ≤ env.tsVal r.startDate

/-- The records the builder iterates over, after the in-scope guard. -/
def scopeRows (env : BuilderEnv) (show_also_hist : Bool) (rows : List PriceRecord) : List PriceRecord :=
  rows.filter (inScopeB env show_also_hist)

/-- The row sequence of a table: the selected resolution's data, sorted by
`startDate`, restricted to the in-scope records (`generate_html.py` lines
81-83 with the guard of line 107). -/
def tableRows (env : BuilderEnv) (show_also_hist : Bool) (price_data price_data_15 : List PriceRecord) (show15 : Bool) : List PriceRecord :=
  scopeRows env show_also_hist (if show15 then sortByStart price_data_15 else sortByStart price_data)

/-- The two-decimal 15-minute sub-prices matching an hourly record
(`generate_html.py` lines 135-136): those 15-minute records whose
`startDate` contains the hourly record's `startDate[:13]` as a substring. -/
def hourSubPrices (sorted15 : List PriceRecord) (r : PriceRecord) : List ℚ :=
  ((sorted15.filter (fun dp => listContains (r.startDate.take 13).toList dp.startDate.toList)).map
    (fun dp => pyRound2 dp.price))

/-- One bar-graph cell (`generate_html.py` lines 128-150).  `none` models an
aborted run: the `assert` of line 137 firing, or an `IndexError` of the
list assignment of line 142. -/
def mkBarCell (show15 : Bool) (scale : ℚ) (sorted15 : List PriceRecord) (r : PriceRecord) : Option String :=
  let price := pyRound2 r.price
  let price_bar_width := pyRound (price * scale)
  if 0 ≤ price_bar_width then
    let price_bar := List.replicate price_bar_width.toNat '▉'
    if show15 then some (String.mk price_bar)
    else
      let subs := hourSubPrices sorted15 r
      if subs.length = 4 then
        match subs with
        | [] => none
        | s0 :: srest =>
          let hour_min_price := srest.foldl min s0
          let min_indicator_at := pyRound (hour_min_price * scale)
          let bar1 :=
            if min_indicator_at < (price_bar.length : ℤ) then
              pySetIdx price_bar min_indicator_at '▜'
            else some price_bar
          match bar1 with
          | none => none
          | some bar1 =>
            let hour_max_price := srest.foldl max s0
            let max_indicator_at := pyRound (hour_max_price * scale)
            let bar2 :=
              if (bar1.length : ℤ) < max_indicator_at then
                bar1 ++ List.replicate (max_indicator_at - (bar1.length : ℤ) - 1).toNat ' ' ++ ['▗']
              else bar1
            some (String.mk bar2)
      else none
  else some "◁"

/-- The loop state of `PriceTable.__init__` (`generate_html.py` lines
103-104 and the four column data lists). -/
structure BuildState where
  date_to_show : String
  hour_to_show : String
  dates : List String
  hours : List String
  prices : List String
  bars : List String
deriving DecidableEq

/-- One iteration of the column-building loop of `PriceTable.__init__`
(`generate_html.py` lines 105-150) on an in-scope record. -/
def processRow (env : BuilderEnv) (show15 : Bool) (scale : ℚ) (sorted15 : List PriceRecord) (st : BuildState) (r : PriceRecord) : Option BuildState :=
  let dstr := env.fmtDate r.startDate
  let hstr := env.fmtHour r.startDate
  (mkBarCell show15 scale sorted15 r).map (fun bar =>
    { date_to_show := dstr
      hour_to_show := hstr
      dates := st.dates ++ [if st.date_to_show = dstr then "" else dstr]
      hours := st.hours ++ [if st.hour_to_show = hstr then "" else hstr]
      prices := st.prices ++ [priceCellStr r.price]
      bars := st.bars ++ [bar] })

/-- The column-building loop of `PriceTable.__init__` over the in-scope
records. -/
def buildLoop (env : BuilderEnv) (show15 : Bool) (scale : ℚ) (sorted15 : List PriceRecord) : BuildState → List PriceRecord → Option BuildState
  | st, [] => some st
  | st, r :: rs =>
    match processRow env show15 scale sorted15 st r with
    | none => none
    | some st' => buildLoop env show15 scale sorted15 st' rs

/-- The initial loop state: empty columns, empty `date_to_show` and
`hour_to_show`. -/
def initState : BuildState := ⟨"", "", [], [], [], []⟩

/-- Packaging the finished loop state into the `PriceTable` fields
(`generate_html.py` lines 86-89, 97, 100, 151). -/
def assembleTable (max_price scale : ℚ) (show15 : Bool) (st : BuildState) : PriceTable :=
  { date_column := { header := "Päivä", header_css_class := "date", content_css_class := "date", data := st.dates }
    hour_column := { header := "Tunti", header_css_class := "hour", content_css_class := "hour", data := st.hours }
    price_column := { header := "Hinta", header_css_class := "price", content_css_class := "price", data := st.prices }
    bar_graph_column := { header := "(snt/kWh, sis. alv)", header_css_class := "bargraph", content_css_class := "bargraph", data := st.bars }
    max_price := max_price
    bar_width_per_price := scale
    show_15_min_prices := show15
    has_two_columns := decide (34 < st.dates.length) }

/-- The table constructor `PriceTable.__init__` (`generate_html.py` lines 80-151).  Here `none` models
an aborted run (the `ValueError` of `max([])` on line 97, or a failing
`assert` / `IndexError` in the bar-cell construction). -/
def buildTable (env : BuilderEnv) (price_data : List PriceRecord) (target_w : ℚ) (show_also_hist : Bool) (price_data_15 : List PriceRecord) (show15 : Bool) : Option PriceTable :=
  let sorted15 := sortByStart price_data_15
  let rows := tableRows env show_also_hist price_data price_data_15 show15
  match pyMaxQ (rows.map (fun r => r.price)) with
  | none => none
  | some max_price =>
    let scale := if 0 < max_price then target_w / max_price else 1
    match buildLoop env show15 scale sorted15 initState rows with
    | none => none
    | some st => some (assembleTable max_price scale show15 st)

/-- The method `PriceTable.length` (`generate_html.py` lines 153-155): the common
column length; `none` models the assert firing on a length mismatch. -/
def PriceTable.length (t : PriceTable) : Option ℕ :=
  if t.date_column.data.length = t.hour_column.data.length ∧
     t.hour_column.data.length = t.price_column.data.length ∧
     t.price_column.data.length = t.bar_graph_column.data.length
  then some t.date_column.data.length else none

/-- The two-column split of `get_html_table_vertical`
(`generate_html.py` lines 162-163): `col1_len = int(n / 2) + n % 2`,
`col2_len = n - col1_len`. -/
def colSplit (n : ℕ) : ℕ × ℕ := (n / 2 + n % 2, n - (n / 2 + n % 2))

/-- The date/hour suppression of `PriceTable.__init__` (`generate_html.py`
lines 103-122), as a function of the previously shown value and the run of
formatted values: a value equal to the previous one is replaced by `""`. -/
def suppressFrom (cur : String) : List String → List String
  | [] => []
  | x :: xs => (if cur = x then "" else x) :: suppressFrom x xs

/-- The last element of a list, or a default. -/
def lastD : List String → String → String
  | [], d => d
  | x :: xs, _ => lastD xs x

/-- Map a fallible function over a list, failing when any element fails. -/
def mapOpt (f : α → Option β) : List α → Option (List β)
  | [] => some []
  | x :: xs =>
    match f x with
    | none => none
    | some y =>
      match mapOpt f xs with
      | none => none
      | some ys => some (y :: ys)

/-- Config constant `target_bar_max_width` (`generate_html.py` line 25). -/
def target_bar_max_width : ℚ := 20

/-- Config constant `show_also_history` (`generate_html.py` line 26). -/
def show_also_history : Bool := false

/-- Config constant `html_preview_url_start` (`generate_html.py` line 28). -/
def html_preview_url_start : String :=
  "https://raw.githack.com/t-800m101/spot-hinta/refs/heads/main/"

/-- Config constant `html_output_filename_prefix` (`generate_html.py` line
22; renamed here). -/
def html_output_filename_stem : String := "spot-hintataulukko"

/-- Config constant `html_output_filename_prefix_15min` (`generate_html.py`
line 23; renamed here). -/
def html_output_filename_stem_15min : String := "spot-hintataulukko-15min"

/-- The four data cells of one table row (`generate_html.py` lines 178 and
180).  Indexing is guarded by the caller, so the default of `getD` is
never consulted there. -/
def rowCells (t : PriceTable) (i : ℕ) : String :=
  "<td class=\"" ++ t.date_column.content_css_class ++ "\">" ++ t.date_column.data.getD i "" ++
  "</td><td class=\"" ++ t.hour_column.content_css_class ++ "\">" ++ t.hour_column.data.getD i "" ++
  "</td><td class=\"" ++ t.price_column.content_css_class ++ "\">" ++ t.price_column.data.getD i "" ++
  "</td><td class=\"" ++ t.bar_graph_column.content_css_class ++ "\">" ++ t.bar_graph_column.data.getD i "" ++
  "</td>"

/-- The four header cells (`generate_html.py` lines 169 and 171). -/
def headerCells (t : PriceTable) : String :=
  "<th class=\"" ++ t.date_column.header_css_class ++ "\">" ++ t.date_column.header ++
  "</th><th class=\"" ++ t.hour_column.header_css_class ++ "\">" ++ t.hour_column.header ++
  "</th><th class=\"" ++ t.price_column.header_css_class ++ "\">" ++ t.price_column.header ++
  "</th><th class=\"" ++ t.bar_graph_column.header_css_class ++ "\">" ++ t.bar_graph_column.header ++
  "</th>"

/-- The filler cells of line 182 of `generate_html.py`.  That line is a
plain (non-f) string in the source, so the `\x7bself...\x7d` pieces are
literal text in the output; we reproduce that verbatim. -/
def emptySecondCell : String :=
  "<td class=\"\x7bself.date_column.content_css_class\x7d\"></td><td class=\"\x7bself.hour_column.content_css_class\x7d\"></td><td class=\"\x7bself.price_column.content_css_class\x7d\"></td><td class=\"\x7bself.bar_graph_column.content_css_class\x7d\"></td>"

/-- The method `PriceTable.get_html_table_vertical` (`generate_html.py` lines
157-191).  `none` models a failing assert (column-length mismatch via
`self.length()`, or an empty table). -/
def get_html_table_vertical (t : PriceTable) (swap_columns : Bool) : Option String :=
  match t.length with
  | none => none
  | some table_len =>
    if table_len = 0 then none
    else
      let cl := if t.has_two_columns then colSplit table_len else (table_len, 0)
      let col1_len := cl.1
      let col2_len := cl.2
      let headers := "<tr>" ++ headerCells t ++ (if 0 < col2_len then headerCells t else "") ++ "</tr>"
      let dataRows := (List.range col1_len).foldl (fun acc i_row =>
        let i1 := i_row
        let i2 := i1 + col1_len
        let first_cell := rowCells t i1
        let second_cell := if i2 < table_len then rowCells t i2 else emptySecondCell
        acc ++ "<tr>" ++
          (if !swap_columns || !t.has_two_columns then first_cell ++ second_cell
           else second_cell ++ first_cell) ++ "</tr>") ""
      some ("<table class=\"prices\">" ++ headers ++ dataRows ++ "</table>")

/-- The head part of the page document (`generate_html.py` lines 205-305):
doctype, meta, and the style sheet parameterized by orientation, theme and
font size.  Literal CSS braces are the `\x7b`/`\x7d` characters. -/
def htmlPageHead (orientation color_theme font_size : String) : String :=
  "\n            <!doctype html>\n\n            <html lang=\"fi\" " ++
  (if orientation ≠ "vertical" then "style=\"writing-mode: sideways-lr;\"" else "") ++
  ">\n            <head>\n                <meta charset=\"utf-8\">\n                <meta name=\"viewport\" content=\"" ++
  (if orientation = "vertical" then "height=device-height" else "width=device-width") ++
  ", initial-scale=1\">\n                <title>Sähkön hinta nyt</title>\n                <meta name=\"description\" content=\"Sähkön spot-hinta nykyhetkestä eteenpäin yksinkertaisessa taulukossa ilman mainoksia ja muuta tauhkaa.\">\n                <meta name=\"author\" content=\"t-800m101\">\n\n                <style>\n                    body \x7b\n                        background-color: " ++
  (if color_theme = "light" then "#f9f9f9" else "black") ++
  ";\n                        color: " ++
  (if color_theme = "light" then "black" else "#00FF00") ++
  ";\n                    \x7d\n                    table.prices \x7b\n                        " ++
  (if orientation = "vertical" then "height:85vh" else "width:85vw") ++
  ";\n                        border-spacing: 0px;\n                        font-size:" ++ font_size ++
  (if orientation = "vertical" then "vh" else "vw") ++
  ";\n                        white-space: nowrap;\n                        padding-" ++
  (if orientation = "vertical" then "bottom" else "right") ++
  ": 4px;\n                    \x7d\n                    tr \x7b\n                        padding: 0px;\n                        margin: 0px;\n                    \x7d\n                    \n                    th \x7b\n                        padding-left: 2px;\n                        padding-right: 0px;\n                        text-align: " ++
  (if orientation = "vertical" then "center" else "left") ++
  ";\n                        " ++
  (if orientation ≠ "vertical" then "padding-bottom: 4px;" else "padding-bottom: 0px;") ++
  "\n                        " ++
  (if orientation ≠ "vertical" then "writing-mode: horizontal-tb;" else "") ++
  "\n                    \x7d\n                    th.bargraph \x7b\n                        font-weight: normal;\n                        text-align: left;\n                    \x7d\n                    th.price \x7b\n                        " ++
  (if orientation = "vertical" then "padding-left: 5px;" else "") ++
  "\n                    \x7d\n\n                    td \x7b\n                        padding-top: 0px;\n                        padding-bottom: 0px;\n                        padding-left: 2px;\n                        padding-right: 0px;\n                        text-align: center;\n                    \x7d\n                    td.hour \x7b\n                        " ++
  (if orientation ≠ "vertical" then "padding-bottom: 4px;" else "") ++
  "\n                        " ++
  (if orientation ≠ "vertical" then "writing-mode: horizontal-tb;" else "") ++
  "\n                    \x7d\n                    td.price \x7b\n                        text-align: right;\n                        " ++
  (if orientation = "vertical" then "padding-right: 2px;" else "padding-top: 2px;") ++
  "\n                        " ++
  (if orientation = "vertical" then "padding-left: 2px;" else "padding-bottom: 20px;") ++
  "\n                    \x7d\n                    td.bargraph \x7b\n                        font-family: \x27Courier New\x27, monospace;\n                        text-align: left;\n                        color: " ++
  (if color_theme = "light" then "#1a5fb4" else "#008000") ++
  ";\n                        letter-spacing: 0px;\n                    \x7d\n                    \n                    p \x7b\n                        font-size:1.3" ++
  (if orientation = "vertical" then "vh" else "vw") ++
  ";\n                    \x7d\n                    .button \x7b\n                        font-size: 1.2" ++
  (if orientation = "vertical" then "vh" else "vw") ++
  ";\n                        font-weight: bold;\n                        text-decoration: none;\n                        padding-" ++
  (if orientation = "vertical" then "top" else "left") ++
  ": 2px;\n                        color: " ++
  (if color_theme = "light" then "black" else "white") ++
  ";\n                        background-color: " ++
  (if color_theme = "light" then "#EFEFEF" else "#2F4F4F") ++
  ";\n                        border-right: 2px solid #101010;\n                        border-bottom: 2px solid #101010;\n                        display: inline-block;\n                        " ++
  (if orientation = "vertical" then "width" else "height") ++
  ": 50%;\n                        " ++
  (if orientation = "vertical" then "height" else "width") ++
  ": " ++
  (if orientation = "vertical" then "5vh" else "4.5vw") ++
  ";\n                        text-align: center;\n                    \x7d\n                    .footerbutton \x7b\n                        font-size: 1.2" ++
  (if orientation = "vertical" then "vh" else "vw") ++
  ";\n                        font-weight: bold;\n                        text-decoration: none;\n                        padding-" ++
  (if orientation = "vertical" then "top" else "left") ++
  ": 2px;\n                        color: " ++
  (if color_theme = "light" then "black" else "white") ++
  ";\n                        background-color: " ++
  (if color_theme = "light" then "#EFEFEF" else "#2F4F4F") ++
  ";\n                        border-right: 2px solid #101010;\n                        border-bottom: 2px solid #101010;\n                        display: inline-block;\n                        " ++
  (if orientation = "vertical" then "width" else "height") ++
  ": 15%;\n                        " ++
  (if orientation = "vertical" then "height" else "width") ++
  ": " ++
  (if orientation = "vertical" then "5vh" else "4.5vw") ++
  ";\n                        text-align: center;\n                    \x7d\n                </style>\n            </head>\n            <body>\n            "

/-- One footer link (`generate_html.py` lines 309-311 and 317-319). -/
def footerLink (target css label : String) : String :=
  "                <a href=\"" ++ html_preview_url_start ++ target ++
  ".html\" class=\"" ++ css ++ "\">" ++ label ++ "</a>\n"

/-- The footer of the page (`generate_html.py` lines 307-322): navigation
links and the closing tags, for the 15-minute and the hourly variant. -/
def htmlPageFooter (show15 : Bool) (current_layout_suffix next_layout_suffix : String) : String :=
  if show15 then
    "\n" ++
    footerLink (html_output_filename_stem_15min ++ next_layout_suffix) "footerbutton" "Vaihda<br>ulkoasu" ++
    footerLink (html_output_filename_stem_15min ++ current_layout_suffix) "button" "Päivitä<br>taulukko" ++
    footerLink (html_output_filename_stem ++ current_layout_suffix) "footerbutton" "Tunti-<br>hinnat" ++
    "                </body>\n                </html>\n                "
  else
    "\n" ++
    footerLink (html_output_filename_stem ++ next_layout_suffix) "footerbutton" "Vaihda<br>ulkoasu" ++
    footerLink (html_output_filename_stem ++ current_layout_suffix) "button" "Päivitä<br>taulukko" ++
    footerLink (html_output_filename_stem_15min ++ current_layout_suffix) "footerbutton" "15 min<br>hinnat" ++
    "                </body>\n                </html>\n                "

/-- The method `PriceTable.get_html_page` (`generate_html.py` lines 193-323).  In the
source this method mutates `self`: it assigns the price and bar-graph
column headers depending on the orientation.  We model it as returning the
post-state of the table together with the document text; `none` models an
aborted run inside `get_html_table_vertical`. -/
def get_html_page (t : PriceTable) (current_layout_suffix next_layout_suffix orientation color_theme : String) : Option (PriceTable × String) :=
  let t :=
    if orientation = "vertical" then
      { t with price_column := { t.price_column with header := "Hinta" }
               bar_graph_column := { t.bar_graph_column with header := "(snt/kWh, sis. alv)" } }
    else
      { t with price_column := { t.price_column with header := "" }
               bar_graph_column := { t.bar_graph_column with header := "Hinta<br>(snt/kWh,<br>sis. alv)" } }
  let font_size :=
    if t.has_two_columns then (if orientation = "vertical" then "1.15" else "1.10")
    else "1.7"
  match get_html_table_vertical t (!decide (orientation = "vertical")) with
  | none => none
  | some tbl =>
    some (t, htmlPageHead orientation color_theme font_size ++ tbl ++
             htmlPageFooter t.show_15_min_prices current_layout_suffix next_layout_suffix)

/-- The module-level page generation (`generate_html.py` lines 325-359):
construct the four tables from the cached payloads and render the eight
HTML files, threading each table's state through its successive
`get_html_page` calls.  The result lists `(filename, content)` pairs in
write order; `none` models an aborted run. -/
def generateAllPages (env : BuilderEnv) (d d15 : List PriceRecord) : Option (List (String × String)) :=
  match buildTable env d target_bar_max_width show_also_history d15 false with
  | none => none
  | some data_table =>
  match buildTable env d 18 show_also_history d15 false with
  | none => none
  | some data_table_horizontal =>
  match buildTable env d target_bar_max_width show_also_history d15 true with
  | none => none
  | some data_table_15min =>
  match buildTable env d 18 show_also_history d15 true with
  | none => none
  | some data_table_horizontal_15min =>
  match get_html_page data_table "" "_tumma" "vertical" "light" with
  | none => none
  | some (data_table, p1) =>
  match get_html_page data_table "_tumma" "_vaaka_tumma" "vertical" "dark" with
  | none => none
  | some (_, p2) =>
  match get_html_page data_table_horizontal "_vaaka_tumma" "_vaaka" "horizontal" "dark" with
  | none => none
  | some (data_table_horizontal, p3) =>
  match get_html_page data_table_horizontal "_vaaka" "" "horizontal" "light" with
  | none => none
  | some (_, p4) =>
  match get_html_page data_table_15min "" "_tumma" "vertical" "light" with
  | none => none
  | some (data_table_15min, p5) =>
  match get_html_page data_table_15min "_tumma" "_vaaka_tumma" "vertical" "dark" with
  | none => none
  | some (_, p6) =>
  match get_html_page data_table_horizontal_15min "_vaaka_tumma" "_vaaka" "horizontal" "dark" with
  | none => none
  | some (data_table_horizontal_15min, p7) =>
  match get_html_page data_table_horizontal_15min "_vaaka" "" "horizontal" "light" with
  | none => none
  | some (_, p8) =>
  some [(html_output_filename_stem ++ ".html", p1),
        (html_output_filename_stem ++ "_tumma.html", p2),
        (html_output_filename_stem ++ "_vaaka_tumma.html", p3),
        (html_output_filename_stem ++ "_vaaka.html", p4),
        (html_output_filename_stem_15min ++ ".html", p5),
        (html_output_filename_stem_15min ++ "_tumma.html", p6),
        (html_output_filename_stem_15min ++ "_vaaka_tumma.html", p7),
        (html_output_filename_stem_15min ++ "_vaaka.html", p8)]

/-! ### Helper lemmas -/

theorem ratFloor_le (q : ℚ) : (ratFloor q : ℚ) ≤ q := by
  rw [ratFloor_eq_floor]; exact Int.floor_le q

theorem lt_ratFloor_add_one (q : ℚ) : q < ratFloor q + 1 := by
  rw [ratFloor_eq_floor]; exact_mod_cast Int.lt_floor_add_one q

theorem pyRound_le (q : ℚ) : (pyRound q : ℚ) ≤ q + 1/2 := by
  have h1 := ratFloor_le q
  have h2 := lt_ratFloor_add_one q
  unfold pyRound
  split_ifs with ha hb hc <;> push_cast <;> [linarith; linarith; linarith; linarith]

theorem le_pyRound (q : ℚ) : q - 1/2 ≤ (pyRound q : ℚ) := by
  have h1 := ratFloor_le q
  have h2 := lt_ratFloor_add_one q
  unfold pyRound
  split_ifs with ha hb hc <;> push_cast <;> [linarith; linarith; linarith; linarith]

theorem pyRound_mono {x y : ℚ} (h : x ≤ y) : pyRound x ≤ pyRound y := by
  by_contra hlt
  push_neg at hlt
  have h1 : (pyRound y : ℤ) + 1 ≤ pyRound x := hlt
  have h1q : (pyRound y : ℚ) + 1 ≤ (pyRound x : ℚ) := by exact_mod_cast h1
  have h2 := pyRound_le x
  have h3 := le_pyRound y
  have hxy : x = y := le_antisymm h (by linarith)
  subst hxy
  omega

theorem pyRound2_mono {x y : ℚ} (h : x ≤ y) : pyRound2 x ≤ pyRound2 y := by
  unfold pyRound2
  have := pyRound_mono (by linarith : x * 100 ≤ y * 100)
  have hq : (pyRound (x * 100) : ℚ) ≤ (pyRound (y * 100) : ℚ) := by exact_mod_cast this
  linarith

theorem suppressFrom_length (cur : String) (l : List String) :
    (suppressFrom cur l).length = l.length := by
  induction l generalizing cur with
  | nil => rfl
  | cons x xs ih => simp [suppressFrom, ih]

theorem suppressFrom_getElem_zero (cur : String) (l : List String) :
    (suppressFrom cur l)[0]? = (l[0]?).map (fun x => if cur = x then "" else x) := by
  cases l <;> simp [suppressFrom]

theorem suppressFrom_empty_getElem_zero (l : List String) :
    (suppressFrom "" l)[0]? = l[0]? := by
  rw [suppressFrom_getElem_zero]
  cases l with
  | nil => rfl
  | cons x xs =>
    simp only [List.getElem?_cons_zero, Option.map_some']
    by_cases h : ("" : String) = x
    · rw [if_pos h, h]
    · rw [if_neg h]

theorem suppressFrom_getElem_succ (cur : String) (l : List String) (i : ℕ) (a b : String)
    (ha : l[i]? = some a) (hb : l[i+1]? = some b) :
    (suppressFrom cur l)[i+1]? = some (if a = b then "" else b) := by
  induction l generalizing cur i with
  | nil => simp at ha
  | cons x xs ih =>
    cases i with
    | zero =>
      simp only [List.getElem?_cons_zero, Option.some.injEq] at ha
      subst ha
      simp only [List.getElem?_cons_succ] at hb
      simp only [suppressFrom, List.getElem?_cons_succ]
      rw [suppressFrom_getElem_zero, hb, Option.map_some']
    | succ j =>
      simp only [List.getElem?_cons_succ] at ha hb
      simp only [suppressFrom, List.getElem?_cons_succ]
      exact ih x j ha hb

theorem mapOpt_length {f : α → Option β} : ∀ {l : List α} {bs : List β},
    mapOpt f l = some bs → bs.length = l.length := by
  intro l
  induction l with
  | nil => intro bs h; simp only [mapOpt, Option.some.injEq] at h; subst h; rfl
  | cons x xs ih =>
    intro bs h
    simp only [mapOpt] at h
    cases hx : f x with
    | none => rw [hx] at h; exact absurd h (by simp)
    | some y =>
      rw [hx] at h
      cases hm : mapOpt f xs with
      | none => rw [hm] at h; exact absurd h (by simp)
      | some ys =>
        rw [hm] at h
        simp only [Option.some.injEq] at h
        subst h
        simp [ih hm]

theorem mapOpt_getElem {f : α → Option β} : ∀ {l : List α} {bs : List β},
    mapOpt f l = some bs → ∀ i : ℕ, bs[i]? = (l[i]?).bind f := by
  intro l
  induction l with
  | nil =>
    intro bs h i
    simp only [mapOpt, Option.some.injEq] at h
    subst h
    simp
  | cons x xs ih =>
    intro bs h i
    simp only [mapOpt] at h
    cases hx : f x with
    | none => rw [hx] at h; exact absurd h (by simp)
    | some y =>
      rw [hx] at h
      cases hm : mapOpt f xs with
      | none => rw [hm] at h; exact absurd h (by simp)
      | some ys =>
        rw [hm] at h
        simp only [Option.some.injEq] at h
        subst h
        cases i with
        | zero => simp [hx]
        | succ j => simpa using ih hm j

theorem mapOpt_none_of_mem {f : α → Option β} {l : List α} {x : α}
    (hx : x ∈ l) (hfx : f x = none) : mapOpt f l = none := by
  induction l with
  | nil => simp at hx
  | cons y ys ih =>
    rcases List.mem_cons.mp hx with h | h
    · subst h; simp [mapOpt, hfx]
    · simp only [mapOpt]
      cases hy : f y with
      | none => rfl
      | some b => rw [ih h]

theorem pySetIdx_mem {l l' : List Char} {i : ℤ} {c a : Char}
    (h : pySetIdx l i c = some l') (ha : a ∈ l') : a ∈ l ∨ a = c := by
  unfold pySetIdx at h
  split_ifs at h <;>
    (simp only [Option.some.injEq] at h; subst h;
     exact List.mem_or_eq_of_mem_set ha)

theorem string_ne_marker_of_chars {l : List Char}
    (hchars : ∀ c ∈ l, c ≠ '◁') : String.mk l ≠ "◁" := by
  intro heq
  have hd : l = ['◁'] := congrArg String.data heq
  exact hchars '◁' (hd ▸ List.mem_singleton.mpr rfl) rfl

theorem mkBarCell_neg {show15 : Bool} {scale : ℚ} {sorted15 : List PriceRecord} {r : PriceRecord}
    (h : priceBarWidth scale r.price < 0) :
    mkBarCell show15 scale sorted15 r = some "◁" := by
  unfold priceBarWidth at h
  simp only [mkBarCell]
  rw [if_neg (not_le.mpr h)]

theorem mkBarCell_mem_chars {show15 : Bool} {scale : ℚ} {sorted15 : List PriceRecord}
    {r : PriceRecord} {cell : String}
    (h : mkBarCell show15 scale sorted15 r = some cell)
    (hw : 0 ≤ priceBarWidth scale r.price) :
    ∀ c ∈ cell.data, c = '▉' ∨ c = '▜' ∨ c = ' ' ∨ c = '▗' := by
  unfold priceBarWidth at hw
  simp only [mkBarCell] at h
  rw [if_pos hw] at h
  split at h
  · simp only [Option.some.injEq] at h
    subst h
    intro c hc
    have hc' : c ∈ List.replicate (pyRound (pyRound2 r.price * scale)).toNat '▉' := hc
    exact Or.inl (List.eq_of_mem_replicate hc')
  · split at h
    · split at h
      · exact Option.noConfusion h
      · rename_i s0 srest hsubs
        split at h
        · exact Option.noConfusion h
        · rename_i bar1 hbar1
          simp only [Option.some.injEq] at h
          subst h
          intro c hc
          have hbar1mem : ∀ c ∈ bar1,
              c ∈ List.replicate (pyRound (pyRound2 r.price * scale)).toNat '▉' ∨ c = '▜' := by
            intro a ha
            split at hbar1
            · exact pySetIdx_mem hbar1 ha
            · simp only [Option.some.injEq] at hbar1
              subst hbar1
              exact Or.inl ha
          have hc2 : c ∈ (if ((bar1.length : ℤ) < pyRound (srest.foldl max s0 * scale)) then
              bar1 ++ List.replicate (pyRound (srest.foldl max s0 * scale) - (bar1.length : ℤ) - 1).toNat ' ' ++ ['▗']
            else bar1) := hc
          split at hc2
          · rcases List.mem_append.mp hc2 with hca | hcb
            · rcases List.mem_append.mp hca with hcc | hcd
              · rcases hbar1mem c hcc with hce | hce
                · exact Or.inl (List.eq_of_mem_replicate hce)
                · exact Or.inr (Or.inl hce)
              · exact Or.inr (Or.inr (Or.inl (List.eq_of_mem_replicate hcd)))
            · exact Or.inr (Or.inr (Or.inr (List.mem_singleton.mp hcb)))
          · rcases hbar1mem c hc2 with hce | hce
            · exact Or.inl (List.eq_of_mem_replicate hce)
            · exact Or.inr (Or.inl hce)
    · exact Option.noConfusion h

theorem mkBarCell_nonneg_ne_marker {show15 : Bool} {scale : ℚ} {sorted15 : List PriceRecord}
    {r : PriceRecord} {cell : String}
    (h : mkBarCell show15 scale sorted15 r = some cell)
    (hw : 0 ≤ priceBarWidth scale r.price) : cell ≠ "◁" := by
  intro heq
  have hd : '◁' ∈ cell.data := by
    rw [heq]
    exact List.mem_singleton.mpr rfl
  rcases mkBarCell_mem_chars h hw '◁' hd with hc | hc | hc | hc <;> exact absurd hc (by decide)

theorem mkBarCell_marker_iff {show15 : Bool} {scale : ℚ} {sorted15 : List PriceRecord}
    {r : PriceRecord} {cell : String}
    (h : mkBarCell show15 scale sorted15 r = some cell) :
    (cell = "◁" ↔ priceBarWidth scale r.price < 0) := by
  constructor
  · intro heq
    by_contra hw
    exact mkBarCell_nonneg_ne_marker h (not_lt.mp hw) heq
  · intro hneg
    rw [mkBarCell_neg hneg] at h
    exact (Option.some.injEq _ _ ▸ h).symm

theorem buildLoop_char (env : BuilderEnv) (show15 : Bool) (scale : ℚ) (sorted15 : List PriceRecord) :
    ∀ (rows : List PriceRecord) (st : BuildState),
    buildLoop env show15 scale sorted15 st rows =
      (mapOpt (mkBarCell show15 scale sorted15) rows).map (fun bs =>
        { date_to_show := lastD (rows.map (fun r => env.fmtDate r.startDate)) st.date_to_show
          hour_to_show := lastD (rows.map (fun r => env.fmtHour r.startDate)) st.hour_to_show
          dates := st.dates ++ suppressFrom st.date_to_show (rows.map (fun r => env.fmtDate r.startDate))
          hours := st.hours ++ suppressFrom st.hour_to_show (rows.map (fun r => env.fmtHour r.startDate))
          prices := st.prices ++ rows.map (fun r => priceCellStr r.price)
          bars := st.bars ++ bs }) := by
  intro rows
  induction rows with
  | nil =>
    intro st
    simp [buildLoop, mapOpt, suppressFrom, lastD]
  | cons r rs ih =>
    intro st
    simp only [buildLoop, processRow]
    cases hb : mkBarCell show15 scale sorted15 r with
    | none => simp [mapOpt, hb]
    | some b =>
      simp only [hb, Option.map_some']
      rw [ih]
      simp only [mapOpt, hb]
      cases hm : mapOpt (mkBarCell show15 scale sorted15) rs with
      | none => simp
      | some bs =>
        simp only [Option.map_some', Option.some.injEq, List.map_cons]
        simp [suppressFrom, lastD, BuildState.mk.injEq, List.append_assoc]

theorem buildTable_char {env : BuilderEnv} {d : List PriceRecord} {w : ℚ} {hist : Bool}
    {d15 : List PriceRecord} {s15 : Bool} {t : PriceTable}
    (h : buildTable env d w hist d15 s15 = some t) :
    ∃ m bs,
      pyMaxQ ((tableRows env hist d d15 s15).map (fun r => r.price)) = some m ∧
      mapOpt (mkBarCell s15 (if 0 < m then w / m else 1) (sortByStart d15)) (tableRows env hist d d15 s15) = some bs ∧
      t = assembleTable m (if 0 < m then w / m else 1) s15
        { date_to_show := lastD ((tableRows env hist d d15 s15).map (fun r => env.fmtDate r.startDate)) ""
          hour_to_show := lastD ((tableRows env hist d d15 s15).map (fun r => env.fmtHour r.startDate)) ""
          dates := suppressFrom "" ((tableRows env hist d d15 s15).map (fun r => env.fmtDate r.startDate))
          hours := suppressFrom "" ((tableRows env hist d d15 s15).map (fun r => env.fmtHour r.startDate))
          prices := (tableRows env hist d d15 s15).map (fun r => priceCellStr r.price)
          bars := bs } := by
  cases hm : pyMaxQ ((tableRows env hist d d15 s15).map (fun r => r.price)) with
  | none => simp only [buildTable, hm] at h; exact Option.noConfusion h
  | some m =>
    simp only [buildTable, hm, buildLoop_char] at h
    cases hmap : mapOpt (mkBarCell s15 (if 0 < m then w / m else 1) (sortByStart d15)) (tableRows env hist d d15 s15) with
    | none => rw [hmap] at h; simp at h
    | some bs =>
      rw [hmap] at h
      simp only [Option.map_some', Option.some.injEq, initState, List.nil_append] at h
      exact ⟨m, bs, rfl, hmap, h.symm⟩

/-! ### Concrete data for witnesses and counterexamples -/

/-- A trivial datetime environment for concrete examples: every timestamp
parses to instant 0 (= `now`), every date formats to `"d"`, every hour to
`"h"`. -/
def demoEnv : BuilderEnv := ⟨0, fun _ => 0, fun _ => "d", fun _ => "h"⟩

/-! ### Claims -/

/-- Claim C1, counterexample.  A record with raw price `-0.001` (below
zero) builds, at the positive scale 1, a bar-graph cell that is the empty
bar `""` — not the negative marker `"◁"`: rounding the price to two
decimals gives 0, so the computed bar width is 0 and the non-negative
branch produces an empty run of bar characters. -/
theorem c1_counterexample :
    ((-1/1000 : ℚ) < 0) ∧
    (buildTable demoEnv [] 20 true [⟨"s", -1/1000⟩] true).map
      (fun t => (t.bar_width_per_price, t.bar_graph_column.data)) = some (1, [""]) ∧
    ((0:ℚ) < 1) ∧ ("" : String) ≠ "◁" := by
  refine ⟨by with_unfolding_all decide, by with_unfolding_all decide,
         by with_unfolding_all decide, by with_unfolding_all decide⟩

/-- Claim C1, amended: a row's bar-graph cell is the single negative
marker `"◁"` exactly when the computed bar width
`round(round(price, 2) * scale)` is negative; a price below zero whose
computed width is still non-negative renders a (possibly empty) bar
instead. -/
theorem c1_theorem (env : BuilderEnv) (d : List PriceRecord) (w : ℚ) (hist : Bool)
    (d15 : List PriceRecord) (s15 : Bool) (t : PriceTable)
    (h : buildTable env d w hist d15 s15 = some t)
    (i : ℕ) (r : PriceRecord) (cell : String)
    (hr : (tableRows env hist d d15 s15)[i]? = some r)
    (hc : t.bar_graph_column.data[i]? = some cell) :
    (cell = "◁" ↔ priceBarWidth t.bar_width_per_price r.price < 0) := by
  obtain ⟨m, bs, hm, hmap, ht⟩ := buildTable_char h
  subst ht
  simp only [assembleTable] at hc ⊢
  have hg := mapOpt_getElem hmap i
  rw [hr] at hg
  simp only [Option.some_bind] at hg
  have hcell := hg.symm.trans hc
  exact mkBarCell_marker_iff hcell

/-- Claim C1, witness: a single 15-minute record with price `-1` yields a
table whose only bar cell is the marker `"◁"`, and the amended theorem
applies to it. -/
theorem c1_witness :
    ∃ t, buildTable demoEnv [] 20 true [⟨"s", -1⟩] true = some t ∧
      (("◁" : String) = "◁" ↔ priceBarWidth t.bar_width_per_price (-1 : ℚ) < 0) := by
  have hbt : buildTable demoEnv [] 20 true [⟨"s", -1⟩] true =
      some ⟨⟨"Päivä", "date", "date", ["d"]⟩, ⟨"Tunti", "hour", "hour", ["h"]⟩,
            ⟨"Hinta", "price", "price", ["-1.00"]⟩,
            ⟨"(snt/kWh, sis. alv)", "bargraph", "bargraph", ["◁"]⟩, -1, 1, true, false⟩ := by
    with_unfolding_all rfl
  refine ⟨_, hbt, ?_⟩
  exact c1_theorem demoEnv [] 20 true [⟨"s", -1⟩] true _ hbt
    0 ⟨"s", -1⟩ "◁" (by with_unfolding_all rfl) (by with_unfolding_all rfl)

/-- Claim C3: after a successful table construction all four display
columns have the length of the in-scope row sequence, and the assertion in
`PriceTable.length` passes, returning that common length. -/
theorem c3_theorem (env : BuilderEnv) (d : List PriceRecord) (w : ℚ) (hist : Bool)
    (d15 : List PriceRecord) (s15 : Bool) (t : PriceTable)
    (h : buildTable env d w hist d15 s15 = some t) :
    t.date_column.data.length = (tableRows env hist d d15 s15).length ∧
    t.hour_column.data.length = (tableRows env hist d d15 s15).length ∧
    t.price_column.data.length = (tableRows env hist d d15 s15).length ∧
    t.bar_graph_column.data.length = (tableRows env hist d d15 s15).length ∧
    PriceTable.length t = some (tableRows env hist d d15 s15).length := by
  obtain ⟨m, bs, hm, hmap, ht⟩ := buildTable_char h
  subst ht
  have hbs := mapOpt_length hmap
  refine ⟨?_, ?_, ?_, ?_, ?_⟩ <;>
    simp [assembleTable, PriceTable.length, suppressFrom_length, List.length_map, hbs]

/-- Claim C3, witness: a concrete non-empty build satisfying the column
invariant. -/
theorem c3_witness :
    (0 < (tableRows demoEnv true [] [⟨"s", 1⟩] true).length) ∧
    ∃ t, buildTable demoEnv [] 20 true [⟨"s", 1⟩] true = some t ∧
      PriceTable.length t = some (tableRows demoEnv true [] [⟨"s", 1⟩] true).length := by
  have hbt : buildTable demoEnv [] 20 true [⟨"s", 1⟩] true =
      some ⟨⟨"Päivä", "date", "date", ["d"]⟩, ⟨"Tunti", "hour", "hour", ["h"]⟩,
            ⟨"Hinta", "price", "price", ["1.00"]⟩,
            ⟨"(snt/kWh, sis. alv)", "bargraph", "bargraph", [String.mk (List.replicate 20 '▉')]⟩,
            1, 20, true, false⟩ := by
    with_unfolding_all rfl
  refine ⟨by with_unfolding_all decide, _, hbt, ?_⟩
  exact (c3_theorem demoEnv [] 20 true [⟨"s", 1⟩] true _ hbt).2.2.2.2

/-- Claim C4, counterexample.  In the hourly table the final bar-graph
cell of a row is not always `round(price * scale)` characters long: with
one hourly record of price 5 at target width 20 (scale 4, base width 20),
15-minute sub-prices 3, 4, 5, 8 put the maximum marker at position 32, so
the rendered cell has length 32 ≠ 20. -/
theorem c4_counterexample :
    (buildTable demoEnv [⟨"AAAAAAAAAAAAAx", 5⟩] 20 true
        [⟨"AAAAAAAAAAAAA1", 3⟩, ⟨"AAAAAAAAAAAAA2", 4⟩, ⟨"AAAAAAAAAAAAA3", 5⟩, ⟨"AAAAAAAAAAAAA4", 8⟩]
        false).map
      (fun t => (t.bar_width_per_price, t.bar_graph_column.data.map String.length)) = some (4, [32]) ∧
    priceBarWidth 4 5 = 20 ∧ (32 : ℕ) ≠ 20 := by
  refine ⟨by with_unfolding_all decide, by with_unfolding_all decide, by decide⟩

/-- Claim C4, amended: the scale is `target_width / max(in-scope prices)`
when that maximum is positive and 1 otherwise; each row's base bar width
is `round(round(price, 2) * scale)`, and in 15-minute mode the cell is
exactly that many bar characters (hourly cells may additionally carry
min/max markers and exceed that width).  For 15-minute prices `[5, 10]`
and target width 20 the scale is 2 and the bars have lengths 10 and 20. -/
theorem c4_theorem (env : BuilderEnv) (d : List PriceRecord) (w : ℚ) (hist : Bool)
    (d15 : List PriceRecord) (s15 : Bool) (t : PriceTable) (m : ℚ)
    (h : buildTable env d w hist d15 s15 = some t)
    (hm : pyMaxQ ((tableRows env hist d d15 s15).map (fun r => r.price)) = some m) :
    t.bar_width_per_price = (if 0 < m then w / m else 1) ∧
    (∀ (i : ℕ) (r : PriceRecord), s15 = true →
      (tableRows env hist d d15 s15)[i]? = some r →
      0 ≤ priceBarWidth t.bar_width_per_price r.price →
      t.bar_graph_column.data[i]? =
        some (String.mk (List.replicate (priceBarWidth t.bar_width_per_price r.price).toNat '▉'))) ∧
    (buildTable demoEnv [] 20 true [⟨"a", 5⟩, ⟨"b", 10⟩] true).map
      (fun t' => (t'.bar_width_per_price, t'.bar_graph_column.data.map String.length)) =
      some (2, [10, 20]) := by
  obtain ⟨m', bs, hm', hmap, ht⟩ := buildTable_char h
  rw [hm'] at hm
  have hmm : m' = m := by injection hm
  subst hmm
  subst ht
  refine ⟨by simp [assembleTable], ?_, by with_unfolding_all decide⟩
  intro i r hs15 hr hw
  subst hs15
  simp only [assembleTable] at hw ⊢
  have hg := mapOpt_getElem hmap i
  rw [hr] at hg
  simp only [Option.some_bind] at hg
  rw [hg]
  unfold priceBarWidth at hw ⊢
  simp only [mkBarCell]
  rw [if_pos hw]
  simp

/-- Claim C4, witness: the amended theorem applied to the 15-minute prices
`[5, 10]` at target width 20. -/
theorem c4_witness :
    ∃ t, buildTable demoEnv [] 20 true [⟨"a", 5⟩, ⟨"b", 10⟩] true = some t ∧
      t.bar_width_per_price = 2 ∧
      t.bar_graph_column.data[1]? = some (String.mk (List.replicate 20 '▉')) := by
  have hbt : buildTable demoEnv [] 20 true [⟨"a", 5⟩, ⟨"b", 10⟩] true =
      some ⟨⟨"Päivä", "date", "date", ["d", ""]⟩, ⟨"Tunti", "hour", "hour", ["h", ""]⟩,
            ⟨"Hinta", "price", "price", ["5.00", "10.00"]⟩,
            ⟨"(snt/kWh, sis. alv)", "bargraph", "bargraph",
              [String.mk (List.replicate 10 '▉'), String.mk (List.replicate 20 '▉')]⟩,
            10, 2, true, false⟩ := by
    with_unfolding_all rfl
  refine ⟨_, hbt, ?_, ?_⟩
  · have hthm := c4_theorem demoEnv [] 20 true [⟨"a", 5⟩, ⟨"b", 10⟩] true _ 10
      hbt (by with_unfolding_all rfl)
    rw [hthm.1]
    norm_num
  · have hthm := c4_theorem demoEnv [] 20 true [⟨"a", 5⟩, ⟨"b", 10⟩] true _ 10
      hbt (by with_unfolding_all rfl)
    have happ := hthm.2.1 1 ⟨"b", 10⟩ rfl (by with_unfolding_all rfl)
      (by with_unfolding_all decide)
    exact happ.trans (by with_unfolding_all rfl)

/-- Claim C5: the two-column split gives a first block of `ceil(n/2)` rows
and a second block of the remaining `n - ceil(n/2)` rows (40 rows split as
20+20, 41 rows as 21+20), and a table whose row count exceeds the
threshold 34 is marked two-column. -/
theorem c5_theorem (n : ℕ) (hn : 34 < n) :
    (colSplit n).1 = (n + 1) / 2 ∧
    (colSplit n).1 + (colSplit n).2 = n ∧
    colSplit 40 = (20, 20) ∧ colSplit 41 = (21, 20) ∧
    (∀ (env : BuilderEnv) (d : List PriceRecord) (w : ℚ) (hist : Bool)
       (d15 : List PriceRecord) (s15 : Bool) (t : PriceTable),
      buildTable env d w hist d15 s15 = some t →
      (tableRows env hist d d15 s15).length = n → t.has_two_columns = true) := by
  refine ⟨by unfold colSplit; omega, by unfold colSplit; omega, by decide, by decide, ?_⟩
  intro env d w hist d15 s15 t h hlen
  obtain ⟨m, bs, hm, hmap, ht⟩ := buildTable_char h
  subst ht
  simp only [assembleTable, suppressFrom_length, List.length_map, hlen, decide_eq_true_eq]
  exact hn

/-- Claim C5, witness: the split applied to 40 and 41 rows. -/
theorem c5_witness : (34 < 40) ∧ colSplit 40 = (20, 20) ∧ colSplit 41 = (21, 20) :=
  ⟨by decide, (c5_theorem 40 (by decide)).2.2.1, (c5_theorem 41 (by decide)).2.2.2.1⟩

/-- Claim C6: for a fixed non-negative scale the bar width
`round(round(price, 2) * scale)` is monotonically non-decreasing in the
price. -/
theorem c6_theorem (scale p1 p2 : ℚ) (hs : 0 ≤ scale) (hp : p1 ≤ p2) :
    priceBarWidth scale p1 ≤ priceBarWidth scale p2 := by
  unfold priceBarWidth
  exact pyRound_mono (mul_le_mul_of_nonneg_right (pyRound2_mono hp) hs)

/-- Claim C6, witness: monotonicity at scale 2 for prices 5 and 10. -/
theorem c6_witness :
    (0 : ℚ) ≤ 2 ∧ (5 : ℚ) ≤ 10 ∧ priceBarWidth 2 5 ≤ priceBarWidth 2 10 :=
  ⟨by with_unfolding_all decide, by with_unfolding_all decide,
   c6_theorem 2 5 10 (by with_unfolding_all decide) (by with_unfolding_all decide)⟩

/-- Claim C7: in a built table the first row carries its formatted date
and hour; any later row whose formatted date (hour) equals the previous
row's renders an empty date (hour) cell, and any later row whose value
differs from the previous row's renders the value itself. -/
theorem c7_theorem (env : BuilderEnv) (d : List PriceRecord) (w : ℚ) (hist : Bool)
    (d15 : List PriceRecord) (s15 : Bool) (t : PriceTable)
    (h : buildTable env d w hist d15 s15 = some t) :
    t.date_column.data[0]? = ((tableRows env hist d d15 s15).map (fun r => env.fmtDate r.startDate))[0]? ∧
    t.hour_column.data[0]? = ((tableRows env hist d d15 s15).map (fun r => env.fmtHour r.startDate))[0]? ∧
    (∀ (i : ℕ) (a b : String),
      ((tableRows env hist d d15 s15).map (fun r => env.fmtDate r.startDate))[i]? = some a →
      ((tableRows env hist d d15 s15).map (fun r => env.fmtDate r.startDate))[i+1]? = some b →
      t.date_column.data[i+1]? = some (if a = b then "" else b)) ∧
    (∀ (i : ℕ) (a b : String),
      ((tableRows env hist d d15 s15).map (fun r => env.fmtHour r.startDate))[i]? = some a →
      ((tableRows env hist d d15 s15).map (fun r => env.fmtHour r.startDate))[i+1]? = some b →
      t.hour_column.data[i+1]? = some (if a = b then "" else b)) := by
  obtain ⟨m, bs, hm, hmap, ht⟩ := buildTable_char h
  subst ht
  simp only [assembleTable]
  exact ⟨suppressFrom_empty_getElem_zero _, suppressFrom_empty_getElem_zero _,
    fun i a b ha hb => suppressFrom_getElem_succ "" _ i a b ha hb,
    fun i a b ha hb => suppressFrom_getElem_succ "" _ i a b ha hb⟩

/-- A datetime environment whose formatted date and hour are the first
character of the raw `startDate`; used to exercise repeated and changing
dates in concrete examples. -/
def headEnv : BuilderEnv := ⟨0, fun _ => 0, fun s => s.take 1, fun s => s.take 1⟩

/-- Claim C7, witness: rows with formatted dates `a, a, b` render date
cells `a, "", b` — the repeat is suppressed, the change is shown. -/
theorem c7_witness :
    ∃ t, buildTable headEnv [] 20 true [⟨"aa", 1⟩, ⟨"ab", 1⟩, ⟨"b", 1⟩] true = some t ∧
      t.date_column.data[1]? = some "" ∧ t.date_column.data[2]? = some "b" := by
  have hbt : buildTable headEnv [] 20 true [⟨"aa", 1⟩, ⟨"ab", 1⟩, ⟨"b", 1⟩] true =
      some ⟨⟨"Päivä", "date", "date", ["a", "", "b"]⟩, ⟨"Tunti", "hour", "hour", ["a", "", "b"]⟩,
            ⟨"Hinta", "price", "price", ["1.00", "1.00", "1.00"]⟩,
            ⟨"(snt/kWh, sis. alv)", "bargraph", "bargraph",
              [String.mk (List.replicate 20 '▉'), String.mk (List.replicate 20 '▉'),
               String.mk (List.replicate 20 '▉')]⟩,
            1, 20, true, false⟩ := by
    with_unfolding_all rfl
  refine ⟨_, hbt, ?_, ?_⟩
  · have happ := (c7_theorem headEnv [] 20 true [⟨"aa", 1⟩, ⟨"ab", 1⟩, ⟨"b", 1⟩] true _ hbt).2.2.1
      0 "a" "a" (by with_unfolding_all rfl) (by with_unfolding_all rfl)
    exact happ.trans (by with_unfolding_all rfl)
  · have happ := (c7_theorem headEnv [] 20 true [⟨"aa", 1⟩, ⟨"ab", 1⟩, ⟨"b", 1⟩] true _ hbt).2.2.1
      1 "a" "b" (by with_unfolding_all rfl) (by with_unfolding_all rfl)
    exact happ.trans (by with_unfolding_all rfl)

/-- Claim C8: building an hourly table aborts (the assert of line 137
fires, `buildTable` is `none`) whenever some in-scope row with a
non-negative bar width does not have exactly 4 matching 15-minute
sub-records. -/
theorem c8_theorem (env : BuilderEnv) (d : List PriceRecord) (w : ℚ) (hist : Bool)
    (d15 : List PriceRecord) (r : PriceRecord) (m : ℚ)
    (hm : pyMaxQ ((tableRows env hist d d15 false).map (fun r => r.price)) = some m)
    (hr : r ∈ tableRows env hist d d15 false)
    (hw : 0 ≤ priceBarWidth (if 0 < m then w / m else 1) r.price)
    (hc : (hourSubPrices (sortByStart d15) r).length ≠ 4) :
    buildTable env d w hist d15 false = none := by
  have hcell : mkBarCell false (if 0 < m then w / m else 1) (sortByStart d15) r = none := by
    unfold priceBarWidth at hw
    simp only [mkBarCell]
    rw [if_pos hw, if_neg (by decide : ¬ ((false : Bool) = true)), if_neg hc]
  simp only [buildTable, hm, buildLoop_char]
  rw [mapOpt_none_of_mem hr hcell]
  rfl

/-- Claim C8, witness: one in-scope hourly record with bar width 20 but 0
matching 15-minute sub-records makes the build abort. -/
theorem c8_witness : buildTable demoEnv [⟨"A", 1⟩] 20 true [] false = none :=
  c8_theorem demoEnv [⟨"A", 1⟩] 20 true [] ⟨"A", 1⟩ 1
    (by with_unfolding_all rfl)
    (by with_unfolding_all decide)
    (by with_unfolding_all decide)
    (by with_unfolding_all decide)

/-- A one-row table with the constructor's default headers, used in the
page-rendering examples. -/
def demoTable : PriceTable :=
  ⟨⟨"Päivä", "date", "date", ["d"]⟩, ⟨"Tunti", "hour", "hour", ["00"]⟩,
   ⟨"Hinta", "price", "price", ["1.00"]⟩,
   ⟨"(snt/kWh, sis. alv)", "bargraph", "bargraph", ["▉"]⟩, 1, 20, false, false⟩

/-- Claim C2, counterexample.  `get_html_page` is not free of effects on
the table: rendering `demoTable` with orientation `"horizontal"` changes
the price column's header from `"Hinta"` to `""`. -/
theorem c2_counterexample :
    (get_html_page demoTable "" "" "horizontal" "light").map
      (fun p => p.1.price_column.header) = some "" ∧
    demoTable.price_column.header = "Hinta" ∧ ("" : String) ≠ "Hinta" := by
  refine ⟨by with_unfolding_all rfl, by with_unfolding_all rfl, by decide⟩

/-- Claim C2, amended: `get_html_page` leaves all column data and every
other table field unchanged and has no effect beyond returning the
document text, except that it assigns the price and bar-graph column
headers as a function of the orientation; in particular a table that
already carries the constructor's headers is left fully unchanged by a
vertical-orientation call. -/
theorem c2_theorem (t : PriceTable) (cs ns orientation theme : String)
    (t' : PriceTable) (s : String)
    (h : get_html_page t cs ns orientation theme = some (t', s)) :
    t'.date_column = t.date_column ∧
    t'.hour_column = t.hour_column ∧
    t'.price_column = { t.price_column with header := if orientation = "vertical" then "Hinta" else "" } ∧
    t'.bar_graph_column = { t.bar_graph_column with header :=
      if orientation = "vertical" then "(snt/kWh, sis. alv)" else "Hinta<br>(snt/kWh,<br>sis. alv)" } ∧
    t'.max_price = t.max_price ∧
    t'.bar_width_per_price = t.bar_width_per_price ∧
    t'.show_15_min_prices = t.show_15_min_prices ∧
    t'.has_two_columns = t.has_two_columns ∧
    (orientation = "vertical" → t.price_column.header = "Hinta" →
      t.bar_graph_column.header = "(snt/kWh, sis. alv)" → t' = t) := by
  simp only [get_html_page] at h
  by_cases ho : orientation = "vertical"
  · rw [if_pos ho] at h
    split at h
    · exact Option.noConfusion h
    · simp only [Option.some.injEq, Prod.mk.injEq] at h
      obtain ⟨ht', _⟩ := h
      subst ht'
      refine ⟨rfl, rfl, by rw [if_pos ho], by rw [if_pos ho], rfl, rfl, rfl, rfl, ?_⟩
      intro _ hp hb
      rw [← hp, ← hb]
  · rw [if_neg ho] at h
    split at h
    · exact Option.noConfusion h
    · simp only [Option.some.injEq, Prod.mk.injEq] at h
      obtain ⟨ht', _⟩ := h
      subst ht'
      refine ⟨rfl, rfl, by rw [if_neg ho], by rw [if_neg ho], rfl, rfl, rfl, rfl, ?_⟩
      intro ho' _ _
      exact absurd ho' ho

/-- Claim C2, witness: a vertical-orientation call on a table carrying the
default headers returns the table unchanged. -/
theorem c2_witness :
    ∃ t' s, get_html_page demoTable "" "" "vertical" "light" = some (t', s) ∧ t' = demoTable := by
  have hsome : (get_html_page demoTable "" "" "vertical" "light").isSome = true := by
    with_unfolding_all rfl
  obtain ⟨⟨t', s⟩, h⟩ : ∃ p, get_html_page demoTable "" "" "vertical" "light" = some p :=
    ⟨_, (Option.some_get hsome).symm⟩
  exact ⟨t', s, h,
    (c2_theorem demoTable "" "" "vertical" "light" t' s h).2.2.2.2.2.2.2.2 rfl rfl rfl⟩

/-- Claim C9: page generation is a pure function of the cached payloads
and the abstract datetime environment (which carries `now`): identical
inputs give identical generated pages, and a successful run writes
exactly the eight fixed output filenames in order. -/
theorem c9_theorem (env1 env2 : BuilderEnv) (d1 d2 e1 e2 : List PriceRecord)
    (henv : env1 = env2) (hd : d1 = d2) (he : e1 = e2) :
    generateAllPages env1 d1 e1 = generateAllPages env2 d2 e2 ∧
    (∀ l, generateAllPages env1 d1 e1 = some l →
      l.map Prod.fst =
        [html_output_filename_stem ++ ".html",
         html_output_filename_stem ++ "_tumma.html",
         html_output_filename_stem ++ "_vaaka_tumma.html",
         html_output_filename_stem ++ "_vaaka.html",
         html_output_filename_stem_15min ++ ".html",
         html_output_filename_stem_15min ++ "_tumma.html",
         html_output_filename_stem_15min ++ "_vaaka_tumma.html",
         html_output_filename_stem_15min ++ "_vaaka.html"]) := by
  subst henv hd he
  refine ⟨rfl, ?_⟩
  intro l h
  simp only [generateAllPages] at h
  repeat' split at h
  all_goals
    first
      | exact Option.noConfusion h
      | (simp only [Option.some.injEq] at h; subst h; rfl)

/-- Hourly demo payload: one record whose hour prefix is matched by the
four 15-minute demo records. -/
def demoD : List PriceRecord := [⟨"AAAAAAAAAAAAAx", 4⟩]

/-- Fifteen-minute demo payload: four records for the hour of `demoD`. -/
def demo15 : List PriceRecord :=
  [⟨"AAAAAAAAAAAAA1", 4⟩, ⟨"AAAAAAAAAAAAA2", 4⟩, ⟨"AAAAAAAAAAAAA3", 4⟩, ⟨"AAAAAAAAAAAAA4", 4⟩]

/-- Claim C9, witness: a successful run on the demo payloads is
self-identical and produces the eight fixed filenames. -/
theorem c9_witness :
    generateAllPages demoEnv demoD demo15 = generateAllPages demoEnv demoD demo15 ∧
    ∃ l, generateAllPages demoEnv demoD demo15 = some l ∧
      l.map Prod.fst =
        [html_output_filename_stem ++ ".html",
         html_output_filename_stem ++ "_tumma.html",
         html_output_filename_stem ++ "_vaaka_tumma.html",
         html_output_filename_stem ++ "_vaaka.html",
         html_output_filename_stem_15min ++ ".html",
         html_output_filename_stem_15min ++ "_tumma.html",
         html_output_filename_stem_15min ++ "_vaaka_tumma.html",
         html_output_filename_stem_15min ++ "_vaaka.html"] := by
  have hthm := c9_theorem demoEnv demoEnv demoD demoD demo15 demo15 rfl rfl rfl
  have hsome : (generateAllPages demoEnv demoD demo15).isSome = true := by
    with_unfolding_all rfl
  obtain ⟨l, hl⟩ : ∃ l, generateAllPages demoEnv demoD demo15 = some l :=
    ⟨_, (Option.some_get hsome).symm⟩
  exact ⟨hthm.1, l, hl, hthm.2 l hl⟩

/-- Claim C10: date suppression is computed over the whole row sequence
before the two-column split, so when a table is two-column (row count
above 34) and the formatted date at the start of the second block (row
index `col1_len`) equals the date of the last row of the first block, the
second block's first row renders an empty date cell — suppression is not
reset at the block boundary. -/
theorem c10_theorem (env : BuilderEnv) (d : List PriceRecord) (w : ℚ) (hist : Bool)
    (d15 : List PriceRecord) (s15 : Bool) (t : PriceTable)
    (h : buildTable env d w hist d15 s15 = some t)
    (hn : 34 < (tableRows env hist d d15 s15).length)
    (i : ℕ) (a : String)
    (_hi : i + 1 = (colSplit (tableRows env hist d d15 s15).length).1)
    (ha : ((tableRows env hist d d15 s15).map (fun r => env.fmtDate r.startDate))[i]? = some a)
    (hb : ((tableRows env hist d d15 s15).map (fun r => env.fmtDate r.startDate))[i+1]? = some a) :
    t.has_two_columns = true ∧ t.date_column.data[i+1]? = some "" := by
  obtain ⟨m, bs, hm, hmap, ht⟩ := buildTable_char h
  subst ht
  constructor
  · simp only [assembleTable, suppressFrom_length, List.length_map, decide_eq_true_eq]
    exact hn
  · simp only [assembleTable]
    have := suppressFrom_getElem_succ "" _ i a a ha hb
    simpa using this

/-- Claim C10, witness: 36 rows sharing one formatted date split as 18+18;
the second block's first row (index 18) has an empty date cell. -/
theorem c10_witness :
    ∃ t, buildTable demoEnv [] 20 true (List.replicate 36 ⟨"s", 1⟩) true = some t ∧
      t.has_two_columns = true ∧ t.date_column.data[18]? = some "" := by
  have hbt : buildTable demoEnv [] 20 true (List.replicate 36 ⟨"s", 1⟩) true =
      some ⟨⟨"Päivä", "date", "date", "d" :: List.replicate 35 ""⟩,
            ⟨"Tunti", "hour", "hour", "h" :: List.replicate 35 ""⟩,
            ⟨"Hinta", "price", "price", List.replicate 36 "1.00"⟩,
            ⟨"(snt/kWh, sis. alv)", "bargraph", "bargraph",
              List.replicate 36 (String.mk (List.replicate 20 '▉'))⟩,
            1, 20, true, true⟩ := by
    with_unfolding_all rfl
  refine ⟨_, hbt, ?_⟩
  exact c10_theorem demoEnv [] 20 true (List.replicate 36 ⟨"s", 1⟩) true _ hbt
    (by with_unfolding_all decide) 17 "d"
    (by with_unfolding_all decide)
    (by with_unfolding_all rfl) (by with_unfolding_all rfl)

end SpotHinta
